import Mathlib

/-!
Shallow embedding of `custom_components/garmin_connect/__init__.py`
(the Garmin Connect Home Assistant integration).

Remote-client calls are modelled by an environment `Env` fixing the outcome
of every call of one cycle; coordinator methods are functions in a small
monad `PyM` that threads the list of calls issued so far (the trace) and an
`Except`-style exception channel mirroring Python exception flow.
-/

/-- A Python/JSON value as handled by the integration: the remote client
returns nested dicts, lists, strings, numbers, booleans and None. -/
inductive JVal where
  | null : JVal
  | bool : Bool → JVal
  | num : Int → JVal
  | str : String → JVal
  | arr : List JVal → JVal
  | obj : List (String × JVal) → JVal

/-- The exceptions the source distinguishes: the three garminconnect error
classes, the Python builtins it can hit (KeyError, TypeError, StopIteration
from `next` on an empty filter), the Home Assistant conditions it raises
(UpdateFailed carrying the original error, ConfigEntryNotReady,
IntegrationError), and a family of unspecified other exceptions. -/
inductive PyErr where
  | authenticationError : PyErr
  | tooManyRequestsError : PyErr
  | connectionError : PyErr
  | keyError : PyErr
  | typeError : PyErr
  | stopIteration : PyErr
  | updateFailed : PyErr → PyErr
  | configEntryNotReady : PyErr → PyErr
  | integrationError : PyErr
  | other : Nat → PyErr
deriving DecidableEq, Repr

/-- One remote-client invocation, with its arguments, as recorded in the
trace of a coordinator method. -/
inductive ApiCall where
  | login : ApiCall
  | getUserSummary : ApiCall
  | getBodyComposition : ApiCall
  | getActivitiesByDate : ApiCall
  | getEarnedBadges : ApiCall
  | getDeviceAlarms : ApiCall
  | getActivityTypes : ApiCall
  | getSleepData : ApiCall
  | getHrvData : ApiCall
  | getGear : JVal → ApiCall
  | getGearStats : JVal → ApiCall
  | getGearDefaults : JVal → ApiCall
  | setGearDefault : JVal → JVal → Bool → ApiCall
  | addBodyComposition : List JVal → ApiCall
  | setBloodPressure : List JVal → ApiCall

/-- Lookup in an association list modelling a Python dict (first match). -/
def dlookup : List (String × JVal) → String → Option JVal
  | [], _ => none
  | p :: ps, k => if p.1 = k then some p.2 else dlookup ps k

/-- Python `d[k] = v` on a dict: overwrite in place if the key exists,
append otherwise. -/
def dset (d : List (String × JVal)) (k : String) (v : JVal) :
    List (String × JVal) :=
  if (dlookup d k).isSome then
    d.map (fun p => if p.1 = k then (k, v) else p)
  else d ++ [(k, v)]

/-- Python `{**a, **b}`: entries of `b` overwrite entries of `a`. -/
def dmerge (a b : List (String × JVal)) : List (String × JVal) :=
  b.foldl (fun acc p => dset acc p.1 p.2) a

/-- Python subscript `v[k]` with a string key: KeyError when a dict lacks
the key, TypeError when the value is not a dict. -/
def dictGet (v : JVal) (k : String) : Except PyErr JVal :=
  match v with
  | .obj d =>
    match dlookup d k with
    | some x => .ok x
    | none => .error .keyError
  | _ => .error .typeError

/-- Python item assignment `v[k] = x`; TypeError when `v` is not a dict,
otherwise the updated dict entries. -/
def pySetItem (v : JVal) (k : String) (x : JVal) :
    Except PyErr (List (String × JVal)) :=
  match v with
  | .obj d => .ok (dset d k x)
  | _ => .error .typeError

/-- Python truthiness, as used by `if hrv_data`. -/
def truthy : JVal → Bool
  | .null => false
  | .bool b => b
  | .num n => n != 0
  | .str s => s ≠ ""
  | .arr xs => !xs.isEmpty
  | .obj d => !d.isEmpty

/-- Python iteration over a value (`for x in v`, `filter(..., v)`):
lists yield their elements, dicts their keys, strings their characters;
anything else raises TypeError. -/
def pyIter : JVal → Except PyErr (List JVal)
  | .arr xs => .ok xs
  | .obj d => .ok (d.map (fun p => JVal.str p.1))
  | .str s => .ok (s.data.map (fun c => JVal.str (String.mk [c])))
  | _ => .error .typeError

mutual

/-- Python equality `==` as the source uses it (type keys, activity-type
ids, uuids); containers compare elementwise, dicts additionally by key. -/
def pyEq : JVal → JVal → Bool
  | .null, .null => true
  | .bool a, .bool b => a == b
  | .num a, .num b => a == b
  | .str a, .str b => a == b
  | .arr as, .arr bs => pyEqList as bs
  | .obj as, .obj bs => pyEqPairs as bs
  | _, _ => false

/-- Elementwise Python equality of two lists. -/
def pyEqList : List JVal → List JVal → Bool
  | [], [] => true
  | a :: as, b :: bs => pyEq a b && pyEqList as bs
  | _, _ => false

/-- Entrywise Python equality of two dict entry lists. -/
def pyEqPairs : List (String × JVal) → List (String × JVal) → Bool
  | [], [] => true
  | a :: as, b :: bs => a.1 == b.1 && pyEq a.2 b.2 && pyEqPairs as bs
  | _, _ => false

end

/-- Contiguous-segment (substring) test on character lists. -/
def segIn (n h : List Char) : Bool :=
  (List.range (h.length + 1)).any (fun i => (h.drop i).take n.length == n)

/-- Python `k in v` for a string `k`: dict key membership, list membership,
substring test on strings; TypeError otherwise. -/
def pyContains (v : JVal) (k : String) : Except PyErr Bool :=
  match v with
  | .obj d => .ok (dlookup d k).isSome
  | .arr xs => .ok (xs.any (fun x => pyEq x (JVal.str k)))
  | .str s => .ok (segIn k.data s.data)
  | _ => .error .typeError

/-- The coordinator monad: a function from the trace of remote calls made
so far to a result (or a raised exception) and the extended trace. -/
def PyM (α : Type) : Type :=
  List ApiCall → Except PyErr α × List ApiCall

def PyM.pure {α : Type} (a : α) : PyM α := fun t => (Except.ok a, t)

def PyM.bind {α β : Type} (x : PyM α) (f : α → PyM β) : PyM β := fun t =>
  match x t with
  | (Except.ok a, t1) => f a t1
  | (Except.error e, t1) => (Except.error e, t1)

instance : Monad PyM where
  pure := PyM.pure
  bind := PyM.bind

/-- Raise a Python exception. -/
def PyM.throw {α : Type} (e : PyErr) : PyM α := fun t => (Except.error e, t)

/-- Run a block and reify its outcome, keeping the calls it made: the body
of a `try` statement. -/
def PyM.attempt {α : Type} (x : PyM α) : PyM (Except PyErr α) := fun t =>
  (Except.ok (x t).1, (x t).2)

/-- Lift a pure Python computation (no remote call) into the monad. -/
def liftE {α : Type} (r : Except PyErr α) : PyM α := fun t => (r, t)

/-- Issue one remote-client call with outcome `r`, recording it in the
trace (`hass.async_add_executor_job(self._api....)`). -/
def call {α : Type} (c : ApiCall) (r : Except PyErr α) : PyM α :=
  fun t => (r, t ++ [c])

/-- Modelled from the spec: the repository imports key-name constants from
its `const` module, which is not among the provided sources. §3 names a
gear item by a uuid with an activity-type primary key, an activity type by
a type key (label) and a type id, and §4.2 a user-profile identifier
extracted from the summary; fixed distinct string keys stand for them. -/
def GEAR_USERPROFILE_ID : String := "userProfileId"

/-- Modelled from the spec: the `GEAR.UUID` key name from the missing
`const` module (§3: a gear item is identified by a UUID). -/
def GEAR_UUID : String := "uuid"

/-- Modelled from the spec: the `GEAR.TYPE_KEY` key name from the missing
`const` module (§3: an activity type has a type key, its human label). -/
def GEAR_TYPE_KEY : String := "typeKey"

/-- Modelled from the spec: the `GEAR.TYPE_ID` key name from the missing
`const` module (§3: an activity type has a numeric type ID). -/
def GEAR_TYPE_ID : String := "typeId"

/-- Modelled from the spec: the `GEAR.ACTIVITY_TYPE_PK` key name from the
missing `const` module (§3: a gear item has an associated activity-type
primary key). -/
def GEAR_ACTIVITY_TYPE_PK : String := "activityTypePk"

/-- Modelled from the spec: the `SERVICE_SETTING.DEFAULT` value from the
missing `const` module (§6: setting is one of default, exclusive-default,
not-default). -/
def SETTING_DEFAULT : String := "default"

/-- Modelled from the spec: the `SERVICE_SETTING.ONLY_THIS_AS_DEFAULT`
value from the missing `const` module (§6 and §4.3: the exclusive-default
setting). -/
def SETTING_ONLY_THIS_AS_DEFAULT : String := "exclusive-default"

/-- The outcome every remote-client call would have during one coordinator
invocation: the oracle the embedded coordinator methods consult.  `login`
raising nothing is `loginExc = none`. -/
structure Env where
  loginExc : Option PyErr
  userSummary : Except PyErr JVal
  bodyComposition : Except PyErr JVal
  activitiesByDate : Except PyErr JVal
  earnedBadges : Except PyErr JVal
  deviceAlarms : Except PyErr JVal
  activityTypes : Except PyErr JVal
  sleepData : Except PyErr JVal
  hrvData : Except PyErr JVal
  gear : JVal → Except PyErr JVal
  gearStats : JVal → Except PyErr JVal
  gearDefaults : JVal → Except PyErr JVal
  setGearDefault : JVal → JVal → Bool → Except PyErr Unit
  addBodyComposition : List JVal → Except PyErr Unit
  setBloodPressure : List JVal → Except PyErr Unit

/-- `GarminConnectDataUpdateCoordinator.async_login` (lines 79-100):
calls `self._api.login`; AuthenticationError or TooManyRequestsError give
`False`, ConnectionError raises ConfigEntryNotReady from the error, any
other exception gives `False`, no exception gives `True`. -/
def async_login (env : Env) : PyM Bool := do
  let r ← PyM.attempt (call ApiCall.login
    (match env.loginExc with
     | none => Except.ok ()
     | some e => Except.error e))
  match r with
  | .ok _ => pure true
  | .error .authenticationError => pure false
  | .error .tooManyRequestsError => pure false
  | .error .connectionError => PyM.throw (.configEntryNotReady .connectionError)
  | .error _ => pure false

/-- Lines 118-155 of `_async_update_data`: the body of the first `try`
block, in source order; the summary dict is mutated in place by the
`lastActivities` and `badges` item assignments. -/
def phase1 (env : Env) :
    PyM (List (String × JVal) × JVal × JVal × JVal × JVal × JVal) := do
  let summary ← call .getUserSummary env.userSummary
  let body ← call .getBodyComposition env.bodyComposition
  let activities ← call .getActivitiesByDate env.activitiesByDate
  let s1 ← liftE (pySetItem summary "lastActivities" activities)
  let badges ← call .getEarnedBadges env.earnedBadges
  let s2 ← liftE (pySetItem (JVal.obj s1) "badges" badges)
  let alarms ← call .getDeviceAlarms env.deviceAlarms
  let activity_types ← call .getActivityTypes env.activityTypes
  let sleep_data ← call .getSleepData env.sleepData
  let hrv_data ← call .getHrvData env.hrvData
  pure (s2, body, alarms, activity_types, sleep_data, hrv_data)

/-- Line 168: `self._api.get_gear(summary[GEAR.USERPROFILE_ID])`. -/
def gearStep1 (env : Env) (s : List (String × JVal)) : PyM JVal := do
  let pid ← liftE (dictGet (JVal.obj s) GEAR_USERPROFILE_ID)
  call (.getGear pid) (env.gear pid)

/-- Lines 172-178: build one `get_gear_stats` executor job per gear item
(looking up each item's uuid) and gather them.  The concurrent gather is
serialized here in submission order; which of several failures wins is
irrelevant to the broad `except` that receives it. -/
def gearStatsLoop (env : Env) : List JVal → PyM (List JVal)
  | [] => pure []
  | g :: gs => do
    let u ← liftE (dictGet g GEAR_UUID)
    let st ← call (.getGearStats u) (env.gearStats u)
    let rest ← gearStatsLoop env gs
    pure (st :: rest)

/-- Lines 172-178 as one step: iterate the gear value and fetch the stats
of every item. -/
def gearStep2 (env : Env) (gear : JVal) : PyM (List JVal) := do
  let items ← liftE (pyIter gear)
  gearStatsLoop env items

/-- Lines 181-183: `self._api.get_gear_defaults(summary[GEAR.USERPROFILE_ID])`. -/
def gearStep3 (env : Env) (s : List (String × JVal)) : PyM JVal := do
  let pid ← liftE (dictGet (JVal.obj s) GEAR_USERPROFILE_ID)
  call (.getGearDefaults pid) (env.gearDefaults pid)

/-- Lines 166-186: the gear phase.  One `try` with a bare `except: pass`
around the three steps: on the first failing step the remaining steps do
not run and every local keeps the value it had, so `gear`, `gear_stats`
and `gear_defaults` keep their `{}` initializers until their own
assignment has succeeded. -/
def phase2 (env : Env) (s : List (String × JVal)) :
    PyM (JVal × JVal × JVal) := do
  let r1 ← PyM.attempt (gearStep1 env s)
  match r1 with
  | .error _ => pure (JVal.obj [], JVal.obj [], JVal.obj [])
  | .ok gear => do
    let r2 ← PyM.attempt (gearStep2 env gear)
    match r2 with
    | .error _ => pure (gear, JVal.obj [], JVal.obj [])
    | .ok stats => do
      let r3 ← PyM.attempt (gearStep3 env s)
      match r3 with
      | .error _ => pure (gear, JVal.arr stats, JVal.obj [])
      | .ok gd => pure (gear, JVal.arr stats, gd)

/-- Chained subscripts `v[k1][k2]...` along a key path. -/
def pathLookup (v : JVal) : List String → Except PyErr JVal
  | [] => .ok v
  | k :: ks => do
    let x ← dictGet v k
    pathLookup x ks

/-- The key path of line 189 for the sleep score. -/
def sleepScorePath : List String :=
  ["dailySleepDTO", "sleepScores", "overall", "value"]

/-- The key path of line 195 for the sleep duration. -/
def sleepTimePath : List String := ["dailySleepDTO", "sleepTimeSeconds"]

/-- Lines 188-198: `try ... except KeyError` around a nested subscript
chain with the target initialized to None: a KeyError leaves None, any
other exception propagates. -/
def catchKeyOpt (r : Except PyErr JVal) : Except PyErr (Option JVal) :=
  match r with
  | .ok v => .ok (some v)
  | .error .keyError => .ok none
  | .error e => .error e

/-- Line 116: the hrvStatus initializer `{"status": "UNKNOWN"}`. -/
def hrvDefault : JVal := JVal.obj [("status", JVal.str "UNKNOWN")]

/-- Lines 200-205: `if hrv_data and "hrvSummary" in hrv_data: hrvStatus =
hrv_data["hrvSummary"]`, inside `try ... except KeyError`, with hrvStatus
initialized to `{"status": "UNKNOWN"}`. -/
def hrvExtract (hrv : JVal) : Except PyErr JVal :=
  match (do
    if truthy hrv then do
      let c ← pyContains hrv "hrvSummary"
      if c then dictGet hrv "hrvSummary" else Except.ok hrvDefault
    else Except.ok hrvDefault : Except PyErr JVal) with
  | .ok v => .ok v
  | .error .keyError => .ok hrvDefault
  | .error e => .error e

/-- Python None for an optional extracted scalar. -/
def optJ : Option JVal → JVal
  | none => JVal.null
  | some v => v

/-- Lines 207-218: the returned dict literal, entries written in source
order so that later entries overwrite earlier ones. -/
def mergeSnapshot (s taD : List (String × JVal))
    (alarms g gs atypes gd : JVal) (ss st : Option JVal) (hv : JVal) :
    List (String × JVal) :=
  dset (dset (dset (dset (dset (dset (dset (dset (dmerge s taD)
    "nextAlarm" alarms) "gear" g) "gear_stats" gs)
    "activity_types" atypes) "gear_defaults" gd)
    "sleepScore" (optJ ss)) "sleepTimeSeconds" (optJ st)) "hrvStatus" hv

/-- Lines 188-218: the pure tail of the update—sleep-score and sleep-time
extraction, hrv extraction, then the merged dict literal, whose
`body["totalAverage"]` subscript and `**`-splat are unguarded. -/
def phase34 (s : List (String × JVal)) (body alarms atypes sleep hrv : JVal)
    (g gs gd : JVal) : Except PyErr (List (String × JVal)) := do
  let ss ← catchKeyOpt (pathLookup sleep sleepScorePath)
  let st ← catchKeyOpt (pathLookup sleep sleepTimePath)
  let hv ← hrvExtract hrv
  let ta ← dictGet body "totalAverage"
  match ta with
  | .obj taD => pure (mergeSnapshot s taD alarms g gs atypes gd ss st hv)
  | _ => Except.error .typeError

/-- Lines 166-218: everything `_async_update_data` does after the first
`try` block succeeded. -/
def updateRest (env : Env) (s : List (String × JVal))
    (body alarms atypes sleep hrv : JVal) : PyM (List (String × JVal)) := do
  let r ← phase2 env s
  liftE (phase34 s body alarms atypes sleep hrv r.1 r.2.1 r.2.2)

/-- `GarminConnectDataUpdateCoordinator._async_update_data` (lines
102-218).  A failure of the first try block with one of the three garmin
errors triggers one relogin: a failed relogin raises UpdateFailed from the
original error, a successful one returns the empty dict; any other
exception of the first block propagates. -/
def updateData (env : Env) : PyM (List (String × JVal)) := do
  let r ← PyM.attempt (phase1 env)
  match r with
  | .error e =>
    if e = .authenticationError ∨ e = .tooManyRequestsError ∨
        e = .connectionError then do
      let ok ← async_login env
      if ok then pure [] else PyM.throw (.updateFailed e)
    else PyM.throw e
  | .ok (s, body, alarms, atypes, sleep, hrv) =>
    updateRest env s body alarms atypes sleep hrv

/-- Python `next(filter(p, xs))`: first element satisfying `p`; the
predicate itself may raise; an exhausted iterator raises StopIteration
(which the coroutine machinery surfaces to the host as a runtime error). -/
def findFirstE (p : JVal → Except PyErr Bool) :
    List JVal → Except PyErr JVal
  | [] => .error .stopIteration
  | x :: xs => do
    let b ← p x
    if b then pure x else findFirstE p xs

/-- Python `list(filter(p, xs))` with a raising predicate. -/
def filterME (p : JVal → Except PyErr Bool) :
    List JVal → Except PyErr (List JVal)
  | [] => .ok []
  | x :: xs => do
    let b ← p x
    let rest ← filterME p xs
    if b then pure (x :: rest) else pure rest

/-- Lines 253-259: the deactivation loop—`set_gear_default(activity_type_id,
active_gear[GEAR.UUID], False)` for each entry to deactivate, in order. -/
def deactivateLoop (env : Env) (atid : JVal) : List JVal → PyM Unit
  | [] => pure ()
  | g :: gs => do
    let gu ← liftE (dictGet g GEAR_UUID)
    call (.setGearDefault atid gu false) (env.setGearDefault atid gu false)
    deactivateLoop env atid gs

/-- The lambda of lines 230-231: `a[GEAR.TYPE_KEY] ==
service_data.data["activity_type"]` (its dict subscripts may raise). -/
def activityTypeMatch (serviceData : List (String × JVal)) (a : JVal) :
    Except PyErr Bool := do
  let tk ← dictGet a GEAR_TYPE_KEY
  let req ← dictGet (JVal.obj serviceData) "activity_type"
  pure (pyEq tk req)

/-- The lambda of lines 247-248: `o[GEAR.ACTIVITY_TYPE_PK] ==
activity_type_id and o[GEAR.UUID] != entity.uuid`, with Python
short-circuit `and` (the uuid subscript only runs on a pk match). -/
def deactivateCond (atid entityUuid : JVal) (o : JVal) :
    Except PyErr Bool := do
  let pk ← dictGet o GEAR_ACTIVITY_TYPE_PK
  if pyEq pk atid then do
    let u ← dictGet o GEAR_UUID
    pure (!pyEq u entityUuid)
  else pure false

/-- `GarminConnectDataUpdateCoordinator.set_active_gear` (lines 220-262):
login (raising IntegrationError on failure), resolve the activity-type id
from the snapshot, then either one direct `set_gear_default` write, or for
the exclusive setting fetch the defaults, deactivate the other entries of
that activity type, and activate the target. -/
def set_active_gear (env : Env) (selfData : List (String × JVal))
    (entityUuid : JVal) (serviceData : List (String × JVal)) :
    PyM Unit := do
  let ok ← async_login env
  if !ok then PyM.throw .integrationError else do
  let setting ← liftE (dictGet (JVal.obj serviceData) "setting")
  let atypesV ← liftE (dictGet (JVal.obj selfData) "activity_types")
  let atypes ← liftE (pyIter atypesV)
  let entry ← liftE (findFirstE (activityTypeMatch serviceData) atypes)
  let atid ← liftE (dictGet entry GEAR_TYPE_ID)
  if !pyEq setting (JVal.str SETTING_ONLY_THIS_AS_DEFAULT) then
    call (.setGearDefault atid entityUuid
        (pyEq setting (JVal.str SETTING_DEFAULT)))
      (env.setGearDefault atid entityUuid
        (pyEq setting (JVal.str SETTING_DEFAULT)))
  else do
    let pid ← liftE (dictGet (JVal.obj selfData) GEAR_USERPROFILE_ID)
    let oldV ← call (.getGearDefaults pid) (env.gearDefaults pid)
    let old ← liftE (pyIter oldV)
    let toDeactivate ← liftE (filterME (deactivateCond atid entityUuid) old)
    deactivateLoop env atid toDeactivate
    call (.setGearDefault atid entityUuid true)
      (env.setGearDefault atid entityUuid true)

/-- Python `service_data.data.get(k)` / `.get(k, None)`: the value when
present, None otherwise. -/
def dgetN (d : List (String × JVal)) (k : String) : JVal :=
  (dlookup d k).getD JVal.null

/-- The field order of the `add_body_composition` call (lines 271-286). -/
def bodyCompositionFields : List String :=
  ["timestamp", "weight", "percent_fat", "percent_hydration",
   "visceral_fat_mass", "bone_mass", "muscle_mass", "basal_met",
   "active_met", "physique_rating", "metabolic_age",
   "visceral_fat_rating", "bmi"]

/-- `GarminConnectDataUpdateCoordinator.add_body_composition` (lines
264-286): login (raising IntegrationError on failure), then one
`add_body_composition` write with every optional field defaulting to
None. -/
def add_body_composition (env : Env)
    (serviceData : List (String × JVal)) : PyM Unit := do
  let ok ← async_login env
  if !ok then PyM.throw .integrationError else
    call (.addBodyComposition (bodyCompositionFields.map (dgetN serviceData)))
      (env.addBodyComposition (bodyCompositionFields.map (dgetN serviceData)))

/-- The field order of the `set_blood_pressure` call (lines 296-302). -/
def bloodPressureFields : List String :=
  ["systolic", "diastolic", "pulse", "note"]

/-- `GarminConnectDataUpdateCoordinator.add_blood_pressure` (lines
288-302): login (raising IntegrationError on failure), then one
`set_blood_pressure` write with the note defaulting to None. -/
def add_blood_pressure (env : Env)
    (serviceData : List (String × JVal)) : PyM Unit := do
  let ok ← async_login env
  if !ok then PyM.throw .integrationError else
    call (.setBloodPressure (bloodPressureFields.map (dgetN serviceData)))
      (env.setBloodPressure (bloodPressureFields.map (dgetN serviceData)))

/-- A gear-defaults entry as the exclusive-default protocol reads it: a
dict with the uuid and the activity-type primary key. -/
def gearEntry (u pk : JVal) : JVal :=
  JVal.obj [(GEAR_UUID, u), (GEAR_ACTIVITY_TYPE_PK, pk)]

/-- An activity-types entry as the label resolution reads it: a dict with
the type key (label) and the numeric type id. -/
def actTypeEntry (label : String) (tid : JVal) : JVal :=
  JVal.obj [(GEAR_TYPE_KEY, JVal.str label), (GEAR_TYPE_ID, tid)]

/-- An environment on which every remote call succeeds with small concrete
data: the summary carries a user-profile id and a `totalKcal` field that
the body-composition totals also carry (to exercise the overwrite). -/
def envBase : Env where
  loginExc := none
  userSummary := .ok (JVal.obj
    [("userProfileId", JVal.str "p1"), ("totalKcal", JVal.num 100)])
  bodyComposition := .ok (JVal.obj
    [("totalAverage", JVal.obj
      [("weight", JVal.num 70), ("totalKcal", JVal.num 999)])])
  activitiesByDate := .ok (JVal.arr [])
  earnedBadges := .ok (JVal.arr [])
  deviceAlarms := .ok (JVal.arr [])
  activityTypes := .ok (JVal.arr [actTypeEntry "running" (JVal.num 5)])
  sleepData := .ok (JVal.obj [])
  hrvData := .ok (JVal.obj [])
  gear := fun _ => .ok (JVal.arr [JVal.obj [("uuid", JVal.str "u1")]])
  gearStats := fun _ => .ok (JVal.obj [("km", JVal.num 3)])
  gearDefaults := fun _ => .ok (JVal.arr [])
  setGearDefault := fun _ _ _ => .ok ()
  addBodyComposition := fun _ => .ok ()
  setBloodPressure := fun _ => .ok ()

/-- Counterexample environment: every phase-1 fetch succeeds, the gear
list fetch succeeds with one item, but every per-gear stats fetch raises
ConnectionError. -/
def envGearStatsFail : Env :=
  { envBase with gearStats := fun _ => .error .connectionError }

/-- The snapshot `envGearStatsFail` produces (the update returns it). -/
def snapGearStatsFail : List (String × JVal) :=
  match (updateData envGearStatsFail []).1 with
  | .ok d => d
  | .error _ => []

/-- Counterexample environment: the HRV response is a non-empty dict whose
`hrvSummary` key maps to an empty dict. -/
def envHrvEmptySummary : Env :=
  { envBase with hrvData := .ok (JVal.obj [("hrvSummary", JVal.obj [])]) }

/-- The snapshot `envHrvEmptySummary` produces. -/
def snapHrvEmptySummary : List (String × JVal) :=
  match (updateData envHrvEmptySummary []).1 with
  | .ok d => d
  | .error _ => []

/-- The snapshot-holding dict an action reads (`self.data`) in the
concrete gear scenarios: a profile id and one activity type. -/
def selfDataBase : List (String × JVal) :=
  [("userProfileId", JVal.str "p1"),
   ("activity_types", JVal.arr [actTypeEntry "running" (JVal.num 5)])]

/-- Service data of the end-to-end exclusive-default scenario of §8. -/
def serviceDataExclusive : List (String × JVal) :=
  [("setting", JVal.str "exclusive-default"),
   ("activity_type", JVal.str "running")]

/-- Environment of the §8 scenario: gear defaults are the entries A and B
for activity type 5. -/
def envExclusive : Env :=
  { envBase with gearDefaults := fun _ => .ok (JVal.arr
      [gearEntry (JVal.str "A") (JVal.num 5),
       gearEntry (JVal.str "B") (JVal.num 5)]) }

/-- The snapshot the all-success environment produces (the update returns
it). -/
def snapBase : List (String × JVal) :=
  match (updateData envBase []).1 with
  | .ok d => d
  | .error _ => []

@[simp]
theorem PyM.bind_apply {α β : Type} (x : PyM α) (f : α → PyM β)
    (t : List ApiCall) :
    (x >>= f) t =
      match x t with
      | (Except.ok a, t1) => f a t1
      | (Except.error e, t1) => (Except.error e, t1) := rfl

@[simp]
theorem PyM.pure_apply {α : Type} (a : α) (t : List ApiCall) :
    (pure a : PyM α) t = (Except.ok a, t) := rfl

@[simp]
theorem PyM.throw_apply {α : Type} (e : PyErr) (t : List ApiCall) :
    (PyM.throw e : PyM α) t = (Except.error e, t) := rfl

@[simp]
theorem PyM.attempt_apply {α : Type} (x : PyM α) (t : List ApiCall) :
    PyM.attempt x t = (Except.ok (x t).1, (x t).2) := rfl

@[simp]
theorem liftE_apply {α : Type} (r : Except PyErr α) (t : List ApiCall) :
    liftE r t = (r, t) := rfl

@[simp]
theorem call_apply {α : Type} (c : ApiCall) (r : Except PyErr α)
    (t : List ApiCall) : call c r t = (r, t ++ [c]) := rfl

/-- C6: For every login attempt: AuthenticationError or
TooManyRequestsError make async_login return false; ConnectionError makes
it raise the not-ready (ConfigEntryNotReady) condition; any other
exception makes it return false without re-raising; no exception makes it
return true. -/
theorem C6_async_login_outcomes (env : Env) :
    ((env.loginExc = some PyErr.authenticationError ∨
      env.loginExc = some PyErr.tooManyRequestsError) →
      async_login env [] = (Except.ok false, [ApiCall.login])) ∧
    (env.loginExc = some PyErr.connectionError →
      async_login env [] =
        (Except.error (PyErr.configEntryNotReady PyErr.connectionError),
         [ApiCall.login])) ∧
    (∀ e, env.loginExc = some e → e ≠ PyErr.authenticationError →
      e ≠ PyErr.tooManyRequestsError → e ≠ PyErr.connectionError →
      async_login env [] = (Except.ok false, [ApiCall.login])) ∧
    (env.loginExc = none →
      async_login env [] = (Except.ok true, [ApiCall.login])) := by
  refine ⟨?_, ?_, ?_, ?_⟩
  · rintro (h | h) <;> simp [async_login, h, Pure.pure, PyM.pure]
  · intro h; simp [async_login, h, Pure.pure, PyM.pure]
  · intro e he h1 h2 h3
    cases e <;>
      first
        | exact absurd rfl h1
        | exact absurd rfl h2
        | exact absurd rfl h3
        | simp [async_login, he, Pure.pure, PyM.pure]
  · intro h; simp [async_login, h, Pure.pure, PyM.pure]

/-- Witness for C6 at four concrete environments, one per branch. -/
theorem C6_async_login_outcomes_witness :
    async_login { envBase with loginExc := some PyErr.authenticationError }
      [] = (Except.ok false, [ApiCall.login]) ∧
    async_login { envBase with loginExc := some PyErr.connectionError }
      [] = (Except.error (PyErr.configEntryNotReady PyErr.connectionError),
            [ApiCall.login]) ∧
    async_login { envBase with loginExc := some (PyErr.other 0) }
      [] = (Except.ok false, [ApiCall.login]) ∧
    async_login envBase [] = (Except.ok true, [ApiCall.login]) :=
  ⟨(C6_async_login_outcomes _).1 (Or.inl rfl),
   (C6_async_login_outcomes _).2.1 rfl,
   (C6_async_login_outcomes _).2.2.1 (PyErr.other 0) rfl
     (by decide) (by decide) (by decide),
   (C6_async_login_outcomes _).2.2.2 rfl⟩

/-- C7: Each of the three write actions raises IntegrationError and issues
no remote write when the preceding authentication attempt fails (login
returned false); the trace holds the login call only. -/
theorem C7_actions_require_login (env : Env)
    (selfData : List (String × JVal)) (entityUuid : JVal)
    (sd1 sd2 sd3 : List (String × JVal)) (e : PyErr)
    (hl : env.loginExc = some e) (hc : e ≠ PyErr.connectionError) :
    set_active_gear env selfData entityUuid sd1 [] =
      (Except.error PyErr.integrationError, [ApiCall.login]) ∧
    add_body_composition env sd2 [] =
      (Except.error PyErr.integrationError, [ApiCall.login]) ∧
    add_blood_pressure env sd3 [] =
      (Except.error PyErr.integrationError, [ApiCall.login]) := by
  cases e <;>
    first
      | exact absurd rfl hc
      | exact ⟨by simp [set_active_gear, async_login, hl, Pure.pure, PyM.pure],
               by simp [add_body_composition, async_login, hl, Pure.pure,
                        PyM.pure],
               by simp [add_blood_pressure, async_login, hl, Pure.pure,
                        PyM.pure]⟩

/-- Witness for C7: a failed login aborts all three actions. -/
theorem C7_actions_require_login_witness :
    set_active_gear { envBase with loginExc := some PyErr.authenticationError }
      selfDataBase (JVal.str "C") serviceDataExclusive [] =
      (Except.error PyErr.integrationError, [ApiCall.login]) ∧
    add_body_composition
      { envBase with loginExc := some PyErr.authenticationError }
      [("weight", JVal.num 70)] [] =
      (Except.error PyErr.integrationError, [ApiCall.login]) ∧
    add_blood_pressure
      { envBase with loginExc := some PyErr.authenticationError }
      [("systolic", JVal.num 120)] [] =
      (Except.error PyErr.integrationError, [ApiCall.login]) :=
  C7_actions_require_login _ _ _ _ _ _ PyErr.authenticationError rfl
    (by decide)

/-- The first try block issues only fetch calls, never a login. -/
theorem phase1_no_login (env : Env) : ApiCall.login ∉ (phase1 env []).2 := by
  rcases h1 : env.userSummary with e1 | v1
  · simp [phase1, h1]
  rcases h2 : env.bodyComposition with e2 | v2
  · simp [phase1, h1, h2]
  rcases h3 : env.activitiesByDate with e3 | v3
  · simp [phase1, h1, h2, h3]
  rcases h4 : pySetItem v1 "lastActivities" v3 with e4 | s4
  · simp [phase1, h1, h2, h3, h4]
  rcases h5 : env.earnedBadges with e5 | v5
  · simp [phase1, h1, h2, h3, h4, h5]
  rcases h6 : pySetItem (JVal.obj s4) "badges" v5 with e6 | s6
  · simp [phase1, h1, h2, h3, h4, h5, h6]
  rcases h7 : env.deviceAlarms with e7 | v7
  · simp [phase1, h1, h2, h3, h4, h5, h6, h7]
  rcases h8 : env.activityTypes with e8 | v8
  · simp [phase1, h1, h2, h3, h4, h5, h6, h7, h8]
  rcases h9 : env.sleepData with e9 | v9
  · simp [phase1, h1, h2, h3, h4, h5, h6, h7, h8, h9]
  rcases h10 : env.hrvData with e10 | v10 <;>
    simp [phase1, h1, h2, h3, h4, h5, h6, h7, h8, h9, h10, Pure.pure, PyM.pure]

/-- C1: When the first try block fails with AuthenticationError,
TooManyRequestsError or ConnectionError, exactly one relogin call is
appended to the trace (the fetch trace held none and nothing is retried);
a relogin that returns false makes the refresh raise UpdateFailed
carrying the original error, and a relogin that succeeds makes the
refresh return the empty snapshot. -/
theorem C1_relogin (env : Env) (e : PyErr) (t1 : List ApiCall)
    (h : phase1 env [] = (Except.error e, t1))
    (he : e = PyErr.authenticationError ∨ e = PyErr.tooManyRequestsError ∨
      e = PyErr.connectionError) :
    ApiCall.login ∉ t1 ∧
    (∀ e2, env.loginExc = some e2 → e2 ≠ PyErr.connectionError →
      updateData env [] =
        (Except.error (PyErr.updateFailed e), t1 ++ [ApiCall.login])) ∧
    (env.loginExc = none →
      updateData env [] = (Except.ok [], t1 ++ [ApiCall.login])) := by
  refine ⟨?_, ?_, ?_⟩
  · have hn := phase1_no_login env
    rw [h] at hn
    exact hn
  · intro e2 hl hne
    rcases he with rfl | rfl | rfl <;>
      cases e2 <;>
        first
          | exact absurd rfl hne
          | simp [updateData, h, async_login, hl, Pure.pure, PyM.pure]
  · intro hl
    rcases he with rfl | rfl | rfl <;>
      simp [updateData, h, async_login, hl, Pure.pure, PyM.pure]

/-- Witness for C1: the summary fetch raises AuthenticationError; with a
failing relogin the refresh raises UpdateFailed carrying it, with a
successful relogin it returns the empty snapshot after one login call. -/
theorem C1_relogin_witness :
    phase1 { envBase with userSummary := Except.error PyErr.authenticationError, loginExc := some PyErr.authenticationError } [] =
      (Except.error PyErr.authenticationError, [ApiCall.getUserSummary]) ∧
    updateData { envBase with userSummary := Except.error PyErr.authenticationError, loginExc := some PyErr.authenticationError } [] =
      (Except.error (PyErr.updateFailed PyErr.authenticationError),
       [ApiCall.getUserSummary, ApiCall.login]) ∧
    updateData { envBase with userSummary := Except.error PyErr.authenticationError } [] =
      (Except.ok [], [ApiCall.getUserSummary, ApiCall.login]) :=
  ⟨rfl,
   (C1_relogin
      { envBase with userSummary := Except.error PyErr.authenticationError, loginExc := some PyErr.authenticationError }
      PyErr.authenticationError [ApiCall.getUserSummary] rfl
      (Or.inl rfl)).2.1 PyErr.authenticationError rfl (by decide),
   (C1_relogin
      { envBase with userSummary := Except.error PyErr.authenticationError }
      PyErr.authenticationError [ApiCall.getUserSummary] rfl
      (Or.inl rfl)).2.2 rfl⟩

theorem dlookup_append (d1 d2 : List (String × JVal)) (k : String) :
    dlookup (d1 ++ d2) k =
      match dlookup d1 k with
      | some v => some v
      | none => dlookup d2 k := by
  induction d1 with
  | nil => simp [dlookup]
  | cons p ps ih =>
    by_cases hp : p.1 = k <;> simp [dlookup, hp, ih]

theorem dlookup_map_overwrite (d : List (String × JVal)) (k : String)
    (v : JVal) (k2 : String) :
    dlookup (d.map (fun p => if p.1 = k then (k, v) else p)) k2 =
      if k2 = k then (if (dlookup d k).isSome then some v else none)
      else dlookup d k2 := by
  induction d with
  | nil => simp [dlookup]
  | cons p ps ih =>
    by_cases hp : p.1 = k
    · by_cases hk : k2 = k
      · simp [dlookup, hp, hk, ih]
      · have hk2 : ¬k = k2 := fun h => hk h.symm
        simp [dlookup, hp, hk, hk2, ih]
    · by_cases hk : k2 = k
      · subst hk
        simp [dlookup, hp, ih]
      · by_cases hp2 : p.1 = k2 <;> simp [dlookup, hp, hp2, hk, ih]

theorem dlookup_dset (d : List (String × JVal)) (k : String) (v : JVal)
    (k2 : String) :
    dlookup (dset d k v) k2 = if k2 = k then some v else dlookup d k2 := by
  unfold dset
  by_cases hs : (dlookup d k).isSome
  · simp [hs, dlookup_map_overwrite]
  · rw [if_neg hs, dlookup_append]
    by_cases hk : k2 = k
    · subst hk
      rcases ho : dlookup d k2 with _ | w
      · simp [dlookup]
      · simp [ho] at hs
    · have hk2 : ¬k = k2 := fun h => hk h.symm
      rcases ho : dlookup d k2 with _ | w <;> simp [dlookup, hk, hk2, ho]

theorem dlookup_dmerge_of_none (b : List (String × JVal)) :
    ∀ (a : List (String × JVal)) (k : String), dlookup b k = none →
      dlookup (dmerge a b) k = dlookup a k := by
  induction b with
  | nil =>
    intro a k _
    simp [dmerge]
  | cons p ps ih =>
    intro a k h
    have hp : p.1 ≠ k := by
      intro he
      simp [dlookup, he] at h
    have hps : dlookup ps k = none := by
      simpa [dlookup, hp] using h
    have hstep : dmerge a (p :: ps) = dmerge (dset a p.1 p.2) ps := by
      simp [dmerge]
    rw [hstep, ih _ _ hps, dlookup_dset, if_neg (fun he => hp he.symm)]

theorem dlookup_not_mem_keys (b : List (String × JVal)) (k : String)
    (h : k ∉ b.map Prod.fst) : dlookup b k = none := by
  induction b with
  | nil => simp [dlookup]
  | cons p ps ih =>
    simp only [List.map_cons, List.mem_cons] at h
    push_neg at h
    simp [dlookup, Ne.symm h.1, ih h.2]

theorem dlookup_dmerge_some (b : List (String × JVal)) :
    ∀ (a : List (String × JVal)) (k : String) (v : JVal),
      (b.map Prod.fst).Nodup → dlookup b k = some v →
      dlookup (dmerge a b) k = some v := by
  induction b with
  | nil =>
    intro a k v _ h
    simp [dlookup] at h
  | cons p ps ih =>
    intro a k v hnd h
    have hstep : dmerge a (p :: ps) = dmerge (dset a p.1 p.2) ps := by
      simp [dmerge]
    simp only [List.map_cons, List.nodup_cons] at hnd
    by_cases hp : p.1 = k
    · have hv : v = p.2 := by
        rw [← hp] at h
        simp [dlookup] at h
        exact h.symm
      have hnone : dlookup ps k = none := by
        apply dlookup_not_mem_keys
        rw [← hp]
        exact hnd.1
      rw [hstep, dlookup_dmerge_of_none _ _ _ hnone, dlookup_dset, hv,
        if_pos hp.symm]
    · have hps : dlookup ps k = some v := by
        simpa [dlookup, hp] using h
      rw [hstep]
      exact ih _ _ _ hnd.2 hps

theorem isSome_dmerge_left (b : List (String × JVal)) :
    ∀ (a : List (String × JVal)) (k : String), (dlookup a k).isSome →
      (dlookup (dmerge a b) k).isSome := by
  induction b with
  | nil =>
    intro a k h
    simpa [dmerge] using h
  | cons p ps ih =>
    intro a k h
    have hstep : dmerge a (p :: ps) = dmerge (dset a p.1 p.2) ps := by
      simp [dmerge]
    rw [hstep]
    apply ih
    rw [dlookup_dset]
    by_cases hk : k = p.1 <;> simp [hk, h]

theorem isSome_dmerge_right (b : List (String × JVal)) :
    ∀ (a : List (String × JVal)) (k : String), (dlookup b k).isSome →
      (dlookup (dmerge a b) k).isSome := by
  induction b with
  | nil =>
    intro a k h
    simp [dlookup] at h
  | cons p ps ih =>
    intro a k h
    have hstep : dmerge a (p :: ps) = dmerge (dset a p.1 p.2) ps := by
      simp [dmerge]
    rw [hstep]
    by_cases hp : p.1 = k
    · by_cases hps : (dlookup ps k).isSome
      · exact ih _ _ hps
      · apply isSome_dmerge_left
        rw [dlookup_dset, if_pos hp.symm]
        simp
    · apply ih
      simpa [dlookup, hp] using h

theorem phase34_ok (s taD : List (String × JVal))
    (body alarms atypes sleep hrv g gs gd hv : JVal)
    (oss ost : Option JVal)
    (hss : catchKeyOpt (pathLookup sleep sleepScorePath) = Except.ok oss)
    (hst : catchKeyOpt (pathLookup sleep sleepTimePath) = Except.ok ost)
    (hhv : hrvExtract hrv = Except.ok hv)
    (hta : dictGet body "totalAverage" = Except.ok (JVal.obj taD)) :
    phase34 s body alarms atypes sleep hrv g gs gd =
      Except.ok (mergeSnapshot s taD alarms g gs atypes gd oss ost hv) := by
  simp [phase34, hss, hst, hhv, hta, Bind.bind, Except.bind, Pure.pure,
    Except.pure]

theorem phase2_pid_none (env : Env) (s : List (String × JVal))
    (t : List ApiCall) (h : dlookup s GEAR_USERPROFILE_ID = none) :
    phase2 env s t =
      (Except.ok (JVal.obj [], JVal.obj [], JVal.obj []), t) := by
  simp [phase2, gearStep1, dictGet, h, Pure.pure, PyM.pure]

theorem phase2_gear_error (env : Env) (s : List (String × JVal))
    (t : List ApiCall) (pid : JVal) (e : PyErr)
    (hp : dlookup s GEAR_USERPROFILE_ID = some pid)
    (hg : env.gear pid = Except.error e) :
    phase2 env s t =
      (Except.ok (JVal.obj [], JVal.obj [], JVal.obj []),
       t ++ [ApiCall.getGear pid]) := by
  simp [phase2, gearStep1, dictGet, hp, hg, Pure.pure, PyM.pure]

theorem phase2_stats_error (env : Env) (s : List (String × JVal))
    (t t2 : List ApiCall) (pid gv : JVal) (e : PyErr)
    (hp : dlookup s GEAR_USERPROFILE_ID = some pid)
    (hg : env.gear pid = Except.ok gv)
    (h2 : gearStep2 env gv (t ++ [ApiCall.getGear pid]) =
      (Except.error e, t2)) :
    phase2 env s t = (Except.ok (gv, JVal.obj [], JVal.obj []), t2) := by
  simp [phase2, gearStep1, dictGet, hp, hg, h2, Pure.pure, PyM.pure]

theorem phase2_defaults_error (env : Env) (s : List (String × JVal))
    (t t2 : List ApiCall) (pid gv : JVal) (sts : List JVal) (e : PyErr)
    (hp : dlookup s GEAR_USERPROFILE_ID = some pid)
    (hg : env.gear pid = Except.ok gv)
    (h2 : gearStep2 env gv (t ++ [ApiCall.getGear pid]) =
      (Except.ok sts, t2))
    (hd : env.gearDefaults pid = Except.error e) :
    phase2 env s t =
      (Except.ok (gv, JVal.arr sts, JVal.obj []),
       t2 ++ [ApiCall.getGearDefaults pid]) := by
  simp [phase2, gearStep1, gearStep3, dictGet, hp, hg, h2, hd,
    Pure.pure, PyM.pure]

theorem phase2_all_ok (env : Env) (s : List (String × JVal))
    (t t2 : List ApiCall) (pid gv gdv : JVal) (sts : List JVal)
    (hp : dlookup s GEAR_USERPROFILE_ID = some pid)
    (hg : env.gear pid = Except.ok gv)
    (h2 : gearStep2 env gv (t ++ [ApiCall.getGear pid]) =
      (Except.ok sts, t2))
    (hd : env.gearDefaults pid = Except.ok gdv) :
    phase2 env s t =
      (Except.ok (gv, JVal.arr sts, gdv),
       t2 ++ [ApiCall.getGearDefaults pid]) := by
  simp [phase2, gearStep1, gearStep3, dictGet, hp, hg, h2, hd,
    Pure.pure, PyM.pure]

theorem updateData_run (env : Env) (s : List (String × JVal))
    (body alarms atypes sleep hrv : JVal) (t1 : List ApiCall)
    (h1 : phase1 env [] =
      (Except.ok (s, body, alarms, atypes, sleep, hrv), t1)) :
    updateData env [] = updateRest env s body alarms atypes sleep hrv t1 := by
  simp [updateData, h1]

theorem updateRest_run (env : Env) (s : List (String × JVal))
    (body alarms atypes sleep hrv g gs gd : JVal) (t t2 : List ApiCall)
    (hp2 : phase2 env s t = (Except.ok (g, gs, gd), t2)) :
    updateRest env s body alarms atypes sleep hrv t =
      (phase34 s body alarms atypes sleep hrv g gs gd, t2) := by
  simp [updateRest, hp2]

theorem gearStatsLoop_calls (env : Env) :
    ∀ (items : List JVal) (t : List ApiCall),
      ∃ r t2, gearStatsLoop env items t = (r, t2) ∧
        ∀ c ∈ t2, c ∈ t ∨ ∃ u, c = ApiCall.getGearStats u := by
  intro items
  induction items with
  | nil =>
    intro t
    exact ⟨Except.ok [], t, by simp [gearStatsLoop, Pure.pure, PyM.pure],
      fun c hc => Or.inl hc⟩
  | cons g gs ih =>
    intro t
    rcases hu : dictGet g GEAR_UUID with e | u
    · refine ⟨Except.error e, t, ?_, fun c hc => Or.inl hc⟩
      simp [gearStatsLoop, hu]
    · rcases hs : env.gearStats u with e | st
      · refine ⟨Except.error e, t ++ [ApiCall.getGearStats u], ?_, ?_⟩
        · simp [gearStatsLoop, hu, hs]
        · intro c hc
          rcases List.mem_append.1 hc with h | h
          · exact Or.inl h
          · exact Or.inr ⟨u, by simpa using h⟩
      · obtain ⟨r, t2, hrun, hprop⟩ := ih (t ++ [ApiCall.getGearStats u])
        rcases r with e | rest
        · refine ⟨Except.error e, t2, ?_, ?_⟩
          · simp [gearStatsLoop, hu, hs, hrun]
          · intro c hc
            rcases hprop c hc with h | h
            · rcases List.mem_append.1 h with h2 | h2
              · exact Or.inl h2
              · exact Or.inr ⟨u, by simpa using h2⟩
            · exact Or.inr h
        · refine ⟨Except.ok (st :: rest), t2, ?_, ?_⟩
          · simp [gearStatsLoop, hu, hs, hrun, Pure.pure, PyM.pure]
          · intro c hc
            rcases hprop c hc with h | h
            · rcases List.mem_append.1 h with h2 | h2
              · exact Or.inl h2
              · exact Or.inr ⟨u, by simpa using h2⟩
            · exact Or.inr h

theorem phase2_result (env : Env) (s : List (String × JVal))
    (t : List ApiCall) :
    ∃ g gs gd t2, phase2 env s t = (Except.ok (g, gs, gd), t2) ∧
      ∀ c ∈ t2, c ∈ t ∨ c ≠ ApiCall.login := by
  rcases hp : dlookup s GEAR_USERPROFILE_ID with _ | pid
  · exact ⟨JVal.obj [], JVal.obj [], JVal.obj [], t,
      phase2_pid_none env s t hp, fun c hc => Or.inl hc⟩
  rcases hg : env.gear pid with e | gv
  · refine ⟨JVal.obj [], JVal.obj [], JVal.obj [], t ++ [ApiCall.getGear pid],
      phase2_gear_error env s t pid e hp hg, ?_⟩
    intro c hc
    rcases List.mem_append.1 hc with h | h
    · exact Or.inl h
    · simp at h
      subst h
      exact Or.inr (by simp)
  rcases hit : pyIter gv with e | items
  · have h2 : gearStep2 env gv (t ++ [ApiCall.getGear pid]) =
        (Except.error e, t ++ [ApiCall.getGear pid]) := by
      simp [gearStep2, hit]
    refine ⟨gv, JVal.obj [], JVal.obj [], t ++ [ApiCall.getGear pid],
      phase2_stats_error env s t _ pid gv e hp hg h2, ?_⟩
    intro c hc
    rcases List.mem_append.1 hc with h | h
    · exact Or.inl h
    · simp at h
      subst h
      exact Or.inr (by simp)
  obtain ⟨r, t2, hrun, hprop⟩ :=
    gearStatsLoop_calls env items (t ++ [ApiCall.getGear pid])
  have hmem : ∀ c ∈ t2, c ∈ t ∨ c ≠ ApiCall.login := by
    intro c hc
    rcases hprop c hc with h | h
    · rcases List.mem_append.1 h with h2 | h2
      · exact Or.inl h2
      · simp at h2
        subst h2
        exact Or.inr (by simp)
    · obtain ⟨u, rfl⟩ := h
      exact Or.inr (by simp)
  have h2 : gearStep2 env gv (t ++ [ApiCall.getGear pid]) = (r, t2) := by
    simp [gearStep2, hit, hrun]
  rcases r with e | sts
  · exact ⟨gv, JVal.obj [], JVal.obj [], t2,
      phase2_stats_error env s t t2 pid gv e hp hg h2, hmem⟩
  rcases hd : env.gearDefaults pid with e | gdv
  · refine ⟨gv, JVal.arr sts, JVal.obj [], t2 ++ [ApiCall.getGearDefaults pid],
      phase2_defaults_error env s t t2 pid gv sts e hp hg h2 hd, ?_⟩
    intro c hc
    rcases List.mem_append.1 hc with h | h
    · exact hmem c h
    · simp at h
      subst h
      exact Or.inr (by simp)
  refine ⟨gv, JVal.arr sts, gdv, t2 ++ [ApiCall.getGearDefaults pid],
    phase2_all_ok env s t t2 pid gv gdv sts hp hg h2 hd, ?_⟩
  intro c hc
  rcases List.mem_append.1 hc with h | h
  · exact hmem c h
  · simp at h
    subst h
    exact Or.inr (by simp)

theorem mergeSnapshot_gear_fields (s taD : List (String × JVal))
    (alarms g gs atypes gd hv : JVal) (oss ost : Option JVal) :
    dlookup (mergeSnapshot s taD alarms g gs atypes gd oss ost hv) "gear" =
      some g ∧
    dlookup (mergeSnapshot s taD alarms g gs atypes gd oss ost hv)
      "gear_stats" = some gs ∧
    dlookup (mergeSnapshot s taD alarms g gs atypes gd oss ost hv)
      "gear_defaults" = some gd := by
  simp [mergeSnapshot, dlookup_dset]

/-- C2 counterexample: with every phase-1 fetch succeeding, the gear-list
fetch succeeding with one item and the per-gear stats fetch raising
ConnectionError, the refresh still returns a snapshot but its `gear`
field holds the fetched non-empty gear list, not an empty value, refuting
that all three gear fields are empty whenever any fetch of the phase
fails. -/
theorem C2_counterexample :
    (updateData envGearStatsFail []).1 = Except.ok snapGearStatsFail ∧
    (updateData envGearStatsFail []).2 =
      [ApiCall.getUserSummary, ApiCall.getBodyComposition,
       ApiCall.getActivitiesByDate, ApiCall.getEarnedBadges,
       ApiCall.getDeviceAlarms, ApiCall.getActivityTypes,
       ApiCall.getSleepData, ApiCall.getHrvData,
       ApiCall.getGear (JVal.str "p1"),
       ApiCall.getGearStats (JVal.str "u1")] ∧
    envGearStatsFail.gearStats (JVal.str "u1") =
      Except.error PyErr.connectionError ∧
    dlookup snapGearStatsFail "gear" =
      some (JVal.arr [JVal.obj [("uuid", JVal.str "u1")]]) ∧
    dlookup snapGearStatsFail "gear" ≠ some (JVal.obj []) ∧
    dlookup snapGearStatsFail "gear_stats" = some (JVal.obj []) ∧
    dlookup snapGearStatsFail "gear_defaults" = some (JVal.obj []) := by
  refine ⟨rfl, rfl, rfl, rfl, ?_, rfl, rfl⟩
  intro h
  simp [dlookup, snapGearStatsFail] at h

/-- C2 (amended): when phase 1 succeeds (and the extraction and merge
steps do not raise), a gear-phase failure never aborts the cycle and
never triggers re-authentication—the refresh returns a merged snapshot
and no login call is ever traced; each of `gear`, `gear_stats`,
`gear_defaults` is empty when its own fetch step or an earlier step of
the phase failed, while fields fetched before the failing step keep
their fetched values. -/
theorem C2_gear_phase_amended (env : Env) (s taD : List (String × JVal))
    (body alarms atypes sleep hrv hv : JVal) (oss ost : Option JVal)
    (t1 : List ApiCall)
    (h1 : phase1 env [] =
      (Except.ok (s, body, alarms, atypes, sleep, hrv), t1))
    (hss : catchKeyOpt (pathLookup sleep sleepScorePath) = Except.ok oss)
    (hst : catchKeyOpt (pathLookup sleep sleepTimePath) = Except.ok ost)
    (hhv : hrvExtract hrv = Except.ok hv)
    (hta : dictGet body "totalAverage" = Except.ok (JVal.obj taD)) :
    (∃ d t2, updateData env [] = (Except.ok d, t2) ∧ ApiCall.login ∉ t2) ∧
    (dlookup s GEAR_USERPROFILE_ID = none →
      ∃ d, updateData env [] = (Except.ok d, t1) ∧
        dlookup d "gear" = some (JVal.obj []) ∧
        dlookup d "gear_stats" = some (JVal.obj []) ∧
        dlookup d "gear_defaults" = some (JVal.obj [])) ∧
    (∀ pid e, dlookup s GEAR_USERPROFILE_ID = some pid →
      env.gear pid = Except.error e →
      ∃ d, updateData env [] = (Except.ok d, t1 ++ [ApiCall.getGear pid]) ∧
        dlookup d "gear" = some (JVal.obj []) ∧
        dlookup d "gear_stats" = some (JVal.obj []) ∧
        dlookup d "gear_defaults" = some (JVal.obj [])) ∧
    (∀ pid gv e t2, dlookup s GEAR_USERPROFILE_ID = some pid →
      env.gear pid = Except.ok gv →
      gearStep2 env gv (t1 ++ [ApiCall.getGear pid]) = (Except.error e, t2) →
      ∃ d, updateData env [] = (Except.ok d, t2) ∧
        dlookup d "gear" = some gv ∧
        dlookup d "gear_stats" = some (JVal.obj []) ∧
        dlookup d "gear_defaults" = some (JVal.obj [])) ∧
    (∀ pid gv sts t2 e, dlookup s GEAR_USERPROFILE_ID = some pid →
      env.gear pid = Except.ok gv →
      gearStep2 env gv (t1 ++ [ApiCall.getGear pid]) = (Except.ok sts, t2) →
      env.gearDefaults pid = Except.error e →
      ∃ d, updateData env [] =
          (Except.ok d, t2 ++ [ApiCall.getGearDefaults pid]) ∧
        dlookup d "gear" = some gv ∧
        dlookup d "gear_stats" = some (JVal.arr sts) ∧
        dlookup d "gear_defaults" = some (JVal.obj [])) := by
  have hno : ApiCall.login ∉ t1 := by
    have h := phase1_no_login env
    rw [h1] at h
    exact h
  refine ⟨?_, ?_, ?_, ?_, ?_⟩
  · obtain ⟨g, gs, gd, t2, hp2, hprop⟩ := phase2_result env s t1
    refine ⟨mergeSnapshot s taD alarms g gs atypes gd oss ost hv, t2, ?_, ?_⟩
    · rw [updateData_run env s body alarms atypes sleep hrv t1 h1,
        updateRest_run env s body alarms atypes sleep hrv g gs gd t1 t2 hp2,
        phase34_ok s taD body alarms atypes sleep hrv g gs gd hv oss ost
          hss hst hhv hta]
    · intro hm
      rcases hprop ApiCall.login hm with h | h
      · exact hno h
      · exact h rfl
  · intro hp
    refine ⟨mergeSnapshot s taD alarms (JVal.obj []) (JVal.obj []) atypes
      (JVal.obj []) oss ost hv, ?_, ?_, ?_, ?_⟩
    · rw [updateData_run env s body alarms atypes sleep hrv t1 h1,
        updateRest_run env s body alarms atypes sleep hrv _ _ _ t1 t1
          (phase2_pid_none env s t1 hp),
        phase34_ok s taD body alarms atypes sleep hrv _ _ _ hv oss ost
          hss hst hhv hta]
    · exact (mergeSnapshot_gear_fields s taD alarms _ _ atypes _ hv oss ost).1
    · exact (mergeSnapshot_gear_fields s taD alarms _ _ atypes _ hv oss ost).2.1
    · exact (mergeSnapshot_gear_fields s taD alarms _ _ atypes _ hv oss ost).2.2
  · intro pid e hp hg
    refine ⟨mergeSnapshot s taD alarms (JVal.obj []) (JVal.obj []) atypes
      (JVal.obj []) oss ost hv, ?_, ?_, ?_, ?_⟩
    · rw [updateData_run env s body alarms atypes sleep hrv t1 h1,
        updateRest_run env s body alarms atypes sleep hrv _ _ _ t1 _
          (phase2_gear_error env s t1 pid e hp hg),
        phase34_ok s taD body alarms atypes sleep hrv _ _ _ hv oss ost
          hss hst hhv hta]
    · exact (mergeSnapshot_gear_fields s taD alarms _ _ atypes _ hv oss ost).1
    · exact (mergeSnapshot_gear_fields s taD alarms _ _ atypes _ hv oss ost).2.1
    · exact (mergeSnapshot_gear_fields s taD alarms _ _ atypes _ hv oss ost).2.2
  · intro pid gv e t2 hp hg h2
    refine ⟨mergeSnapshot s taD alarms gv (JVal.obj []) atypes
      (JVal.obj []) oss ost hv, ?_, ?_, ?_, ?_⟩
    · rw [updateData_run env s body alarms atypes sleep hrv t1 h1,
        updateRest_run env s body alarms atypes sleep hrv _ _ _ t1 _
          (phase2_stats_error env s t1 t2 pid gv e hp hg h2),
        phase34_ok s taD body alarms atypes sleep hrv _ _ _ hv oss ost
          hss hst hhv hta]
    · exact (mergeSnapshot_gear_fields s taD alarms _ _ atypes _ hv oss ost).1
    · exact (mergeSnapshot_gear_fields s taD alarms _ _ atypes _ hv oss ost).2.1
    · exact (mergeSnapshot_gear_fields s taD alarms _ _ atypes _ hv oss ost).2.2
  · intro pid gv sts t2 e hp hg h2 hd
    refine ⟨mergeSnapshot s taD alarms gv (JVal.arr sts) atypes
      (JVal.obj []) oss ost hv, ?_, ?_, ?_, ?_⟩
    · rw [updateData_run env s body alarms atypes sleep hrv t1 h1,
        updateRest_run env s body alarms atypes sleep hrv _ _ _ t1 _
          (phase2_defaults_error env s t1 t2 pid gv sts e hp hg h2 hd),
        phase34_ok s taD body alarms atypes sleep hrv _ _ _ hv oss ost
          hss hst hhv hta]
    · exact (mergeSnapshot_gear_fields s taD alarms _ _ atypes _ hv oss ost).1
    · exact (mergeSnapshot_gear_fields s taD alarms _ _ atypes _ hv oss ost).2.1
    · exact (mergeSnapshot_gear_fields s taD alarms _ _ atypes _ hv oss ost).2.2

/-- Witness for C2 (amended): the stats-step-failure case at a concrete
environment. -/
theorem C2_gear_phase_amended_witness :
    ∃ d, updateData envGearStatsFail [] =
        (Except.ok d,
         [ApiCall.getUserSummary, ApiCall.getBodyComposition,
          ApiCall.getActivitiesByDate, ApiCall.getEarnedBadges,
          ApiCall.getDeviceAlarms, ApiCall.getActivityTypes,
          ApiCall.getSleepData, ApiCall.getHrvData,
          ApiCall.getGear (JVal.str "p1"),
          ApiCall.getGearStats (JVal.str "u1")]) ∧
      dlookup d "gear" =
        some (JVal.arr [JVal.obj [("uuid", JVal.str "u1")]]) ∧
      dlookup d "gear_stats" = some (JVal.obj []) ∧
      dlookup d "gear_defaults" = some (JVal.obj []) :=
  (C2_gear_phase_amended envGearStatsFail
    [("userProfileId", JVal.str "p1"), ("totalKcal", JVal.num 100),
     ("lastActivities", JVal.arr []), ("badges", JVal.arr [])]
    [("weight", JVal.num 70), ("totalKcal", JVal.num 999)]
    (JVal.obj [("totalAverage",
      JVal.obj [("weight", JVal.num 70), ("totalKcal", JVal.num 999)])])
    (JVal.arr []) (JVal.arr [actTypeEntry "running" (JVal.num 5)])
    (JVal.obj []) (JVal.obj []) hrvDefault none none
    [ApiCall.getUserSummary, ApiCall.getBodyComposition,
     ApiCall.getActivitiesByDate, ApiCall.getEarnedBadges,
     ApiCall.getDeviceAlarms, ApiCall.getActivityTypes,
     ApiCall.getSleepData, ApiCall.getHrvData]
    rfl rfl rfl rfl rfl).2.2.2.1
    (JVal.str "p1") (JVal.arr [JVal.obj [("uuid", JVal.str "u1")]])
    PyErr.connectionError
    [ApiCall.getUserSummary, ApiCall.getBodyComposition,
     ApiCall.getActivitiesByDate, ApiCall.getEarnedBadges,
     ApiCall.getDeviceAlarms, ApiCall.getActivityTypes,
     ApiCall.getSleepData, ApiCall.getHrvData,
     ApiCall.getGear (JVal.str "p1"),
     ApiCall.getGearStats (JVal.str "u1")]
    rfl rfl rfl

theorem isSome_dset (d : List (String × JVal)) (k2 : String) (v : JVal)
    (k : String) (h : (dlookup d k).isSome) :
    (dlookup (dset d k2 v) k).isSome := by
  rw [dlookup_dset]
  by_cases hk : k = k2 <;> simp [hk, h]

theorem mergeSnapshot_fixed (s taD : List (String × JVal))
    (alarms g gs atypes gd hv : JVal) (oss ost : Option JVal) :
    dlookup (mergeSnapshot s taD alarms g gs atypes gd oss ost hv)
      "nextAlarm" = some alarms ∧
    dlookup (mergeSnapshot s taD alarms g gs atypes gd oss ost hv)
      "activity_types" = some atypes ∧
    dlookup (mergeSnapshot s taD alarms g gs atypes gd oss ost hv)
      "sleepScore" = some (optJ oss) ∧
    dlookup (mergeSnapshot s taD alarms g gs atypes gd oss ost hv)
      "sleepTimeSeconds" = some (optJ ost) ∧
    dlookup (mergeSnapshot s taD alarms g gs atypes gd oss ost hv)
      "hrvStatus" = some hv := by
  simp [mergeSnapshot, dlookup_dset]

theorem isSome_mergeSnapshot_left (s taD : List (String × JVal))
    (alarms g gs atypes gd hv : JVal) (oss ost : Option JVal) (k : String)
    (h : (dlookup s k).isSome) :
    (dlookup (mergeSnapshot s taD alarms g gs atypes gd oss ost hv)
      k).isSome := by
  unfold mergeSnapshot
  repeat apply isSome_dset
  exact isSome_dmerge_left taD s k h

theorem isSome_mergeSnapshot_right (s taD : List (String × JVal))
    (alarms g gs atypes gd hv : JVal) (oss ost : Option JVal) (k : String)
    (h : (dlookup taD k).isSome) :
    (dlookup (mergeSnapshot s taD alarms g gs atypes gd oss ost hv)
      k).isSome := by
  unfold mergeSnapshot
  repeat apply isSome_dset
  exact isSome_dmerge_right taD s k h

theorem dlookup_mergeSnapshot_not_fixed (s taD : List (String × JVal))
    (alarms g gs atypes gd hv : JVal) (oss ost : Option JVal) (k : String)
    (hk : k ∉ ["nextAlarm", "gear", "gear_stats", "activity_types",
      "gear_defaults", "sleepScore", "sleepTimeSeconds", "hrvStatus"]) :
    dlookup (mergeSnapshot s taD alarms g gs atypes gd oss ost hv) k =
      dlookup (dmerge s taD) k := by
  simp only [List.mem_cons, List.mem_singleton, not_or] at hk
  obtain ⟨h1, h2, h3, h4, h5, h6, h7, h8⟩ := hk
  simp [mergeSnapshot, dlookup_dset, h1, h2, h3, h4, h5, h6, h7, h8]

/-- C3: when every phase-1 fetch succeeds and the update returns a merged
snapshot, that snapshot holds every key of the (mutated) summary dict,
every key of the body-composition totalAverage sub-dict, and the eight
derived keys; and for keys outside the eight literal keys, a totalAverage
entry wins over an identically named summary entry (later-written keys
overwrite earlier ones). -/
theorem C3_merge_contents (env : Env) (s taD : List (String × JVal))
    (body alarms atypes sleep hrv : JVal) (t1 tr : List ApiCall)
    (d : List (String × JVal))
    (h1 : phase1 env [] =
      (Except.ok (s, body, alarms, atypes, sleep, hrv), t1))
    (hta : dictGet body "totalAverage" = Except.ok (JVal.obj taD))
    (hu : updateData env [] = (Except.ok d, tr)) :
    (∀ k, (dlookup s k).isSome → (dlookup d k).isSome) ∧
    (∀ k, (dlookup taD k).isSome → (dlookup d k).isSome) ∧
    (∀ k ∈ ["nextAlarm", "gear", "gear_stats", "activity_types",
      "gear_defaults", "sleepScore", "sleepTimeSeconds", "hrvStatus"],
      (dlookup d k).isSome) ∧
    ((taD.map Prod.fst).Nodup →
      ∀ k v, dlookup taD k = some v →
        k ∉ ["nextAlarm", "gear", "gear_stats", "activity_types",
          "gear_defaults", "sleepScore", "sleepTimeSeconds", "hrvStatus"] →
        dlookup d k = some v) := by
  obtain ⟨g, gs, gd, t2, hp2, _⟩ := phase2_result env s t1
  rw [updateData_run env s body alarms atypes sleep hrv t1 h1,
    updateRest_run env s body alarms atypes sleep hrv g gs gd t1 t2 hp2]
    at hu
  have hu1 : phase34 s body alarms atypes sleep hrv g gs gd =
      Except.ok d := by
    simpa using congrArg Prod.fst hu
  rcases hss : catchKeyOpt (pathLookup sleep sleepScorePath) with e | oss
  · simp [phase34, hss, Bind.bind, Except.bind] at hu1
  rcases hst : catchKeyOpt (pathLookup sleep sleepTimePath) with e | ost
  · simp [phase34, hss, hst, Bind.bind, Except.bind] at hu1
  rcases hhv : hrvExtract hrv with e | hv
  · simp [phase34, hss, hst, hhv, Bind.bind, Except.bind] at hu1
  rw [phase34_ok s taD body alarms atypes sleep hrv g gs gd hv oss ost
    hss hst hhv hta] at hu1
  have hd : d = mergeSnapshot s taD alarms g gs atypes gd oss ost hv := by
    injection hu1 with h
    exact h.symm
  subst hd
  refine ⟨?_, ?_, ?_, ?_⟩
  · intro k hk
    exact isSome_mergeSnapshot_left s taD alarms g gs atypes gd hv oss ost
      k hk
  · intro k hk
    exact isSome_mergeSnapshot_right s taD alarms g gs atypes gd hv oss ost
      k hk
  · intro k hk
    simp only [List.mem_cons, List.mem_singleton] at hk
    rcases hk with rfl | rfl | rfl | rfl | rfl | rfl | rfl | rfl | hk
    · rw [(mergeSnapshot_fixed s taD alarms g gs atypes gd hv oss ost).1]
      simp
    · rw [(mergeSnapshot_gear_fields s taD alarms g gs atypes gd hv
        oss ost).1]
      simp
    · rw [(mergeSnapshot_gear_fields s taD alarms g gs atypes gd hv
        oss ost).2.1]
      simp
    · rw [(mergeSnapshot_fixed s taD alarms g gs atypes gd hv oss ost).2.1]
      simp
    · rw [(mergeSnapshot_gear_fields s taD alarms g gs atypes gd hv
        oss ost).2.2]
      simp
    · rw [(mergeSnapshot_fixed s taD alarms g gs atypes gd hv
        oss ost).2.2.1]
      simp
    · rw [(mergeSnapshot_fixed s taD alarms g gs atypes gd hv
        oss ost).2.2.2.1]
      simp
    · rw [(mergeSnapshot_fixed s taD alarms g gs atypes gd hv
        oss ost).2.2.2.2]
      simp
    · exact absurd hk (List.not_mem_nil _)
  · intro hnd k v hkv hk
    rw [dlookup_mergeSnapshot_not_fixed s taD alarms g gs atypes gd hv
      oss ost k hk]
    exact dlookup_dmerge_some taD s k v hnd hkv


/-- Witness for C3 at the all-success environment: summary and flattened
body keys present, and the shared key totalKcal holds the
body-composition value. -/
theorem C3_merge_contents_witness :
    (dlookup snapBase "userProfileId").isSome ∧
    (dlookup snapBase "lastActivities").isSome ∧
    (dlookup snapBase "weight").isSome ∧
    (dlookup snapBase "hrvStatus").isSome ∧
    (dlookup snapBase "nextAlarm").isSome ∧
    dlookup snapBase "totalKcal" = some (JVal.num 999) := by
  have T := C3_merge_contents envBase
    [("userProfileId", JVal.str "p1"), ("totalKcal", JVal.num 100),
     ("lastActivities", JVal.arr []), ("badges", JVal.arr [])]
    [("weight", JVal.num 70), ("totalKcal", JVal.num 999)]
    (JVal.obj [("totalAverage",
      JVal.obj [("weight", JVal.num 70), ("totalKcal", JVal.num 999)])])
    (JVal.arr []) (JVal.arr [actTypeEntry "running" (JVal.num 5)])
    (JVal.obj []) (JVal.obj [])
    [ApiCall.getUserSummary, ApiCall.getBodyComposition,
     ApiCall.getActivitiesByDate, ApiCall.getEarnedBadges,
     ApiCall.getDeviceAlarms, ApiCall.getActivityTypes,
     ApiCall.getSleepData, ApiCall.getHrvData]
    [ApiCall.getUserSummary, ApiCall.getBodyComposition,
     ApiCall.getActivitiesByDate, ApiCall.getEarnedBadges,
     ApiCall.getDeviceAlarms, ApiCall.getActivityTypes,
     ApiCall.getSleepData, ApiCall.getHrvData,
     ApiCall.getGear (JVal.str "p1"), ApiCall.getGearStats (JVal.str "u1"),
     ApiCall.getGearDefaults (JVal.str "p1")]
    snapBase rfl rfl rfl
  exact ⟨T.1 "userProfileId" rfl, T.1 "lastActivities" rfl,
    T.2.1 "weight" rfl, T.2.2.1 "hrvStatus" (by simp),
    T.2.2.1 "nextAlarm" (by simp),
    T.2.2.2 (by decide) "totalKcal" (JVal.num 999) rfl (by decide)⟩

/-- C8: when the sleep-score and sleep-time key paths both fail with a
missing key (the sleep response lacks dailySleepDTO or the nested keys
below it), the refresh still returns a snapshot (no exception escapes the
extraction) and both sleepScore and sleepTimeSeconds are None. -/
theorem C8_sleep_missing_keys (env : Env) (s taD : List (String × JVal))
    (body alarms atypes sleep hrv hv : JVal) (t1 : List ApiCall)
    (h1 : phase1 env [] =
      (Except.ok (s, body, alarms, atypes, sleep, hrv), t1))
    (hscore : pathLookup sleep sleepScorePath = Except.error PyErr.keyError)
    (htime : pathLookup sleep sleepTimePath = Except.error PyErr.keyError)
    (hhv : hrvExtract hrv = Except.ok hv)
    (hta : dictGet body "totalAverage" = Except.ok (JVal.obj taD)) :
    ∃ d tr, updateData env [] = (Except.ok d, tr) ∧
      dlookup d "sleepScore" = some JVal.null ∧
      dlookup d "sleepTimeSeconds" = some JVal.null := by
  have hss : catchKeyOpt (pathLookup sleep sleepScorePath) =
      Except.ok none := by
    rw [hscore]
    rfl
  have hst : catchKeyOpt (pathLookup sleep sleepTimePath) =
      Except.ok none := by
    rw [htime]
    rfl
  obtain ⟨g, gs, gd, t2, hp2, _⟩ := phase2_result env s t1
  refine ⟨mergeSnapshot s taD alarms g gs atypes gd none none hv, t2,
    ?_, ?_, ?_⟩
  · rw [updateData_run env s body alarms atypes sleep hrv t1 h1,
      updateRest_run env s body alarms atypes sleep hrv g gs gd t1 t2 hp2,
      phase34_ok s taD body alarms atypes sleep hrv g gs gd hv none none
        hss hst hhv hta]
  · exact (mergeSnapshot_fixed s taD alarms g gs atypes gd hv
      none none).2.2.1
  · exact (mergeSnapshot_fixed s taD alarms g gs atypes gd hv
      none none).2.2.2.1

/-- Witness for C8: the all-success environment returns an empty sleep
dict, so both nested lookups miss. -/
theorem C8_sleep_missing_keys_witness :
    ∃ d tr, updateData envBase [] = (Except.ok d, tr) ∧
      dlookup d "sleepScore" = some JVal.null ∧
      dlookup d "sleepTimeSeconds" = some JVal.null :=
  C8_sleep_missing_keys envBase
    [("userProfileId", JVal.str "p1"), ("totalKcal", JVal.num 100),
     ("lastActivities", JVal.arr []), ("badges", JVal.arr [])]
    [("weight", JVal.num 70), ("totalKcal", JVal.num 999)]
    (JVal.obj [("totalAverage",
      JVal.obj [("weight", JVal.num 70), ("totalKcal", JVal.num 999)])])
    (JVal.arr []) (JVal.arr [actTypeEntry "running" (JVal.num 5)])
    (JVal.obj []) (JVal.obj []) hrvDefault
    [ApiCall.getUserSummary, ApiCall.getBodyComposition,
     ApiCall.getActivitiesByDate, ApiCall.getEarnedBadges,
     ApiCall.getDeviceAlarms, ApiCall.getActivityTypes,
     ApiCall.getSleepData, ApiCall.getHrvData]
    rfl rfl rfl rfl rfl

theorem hrvExtract_falsy (hrv : JVal) (h : truthy hrv = false) :
    hrvExtract hrv = Except.ok hrvDefault := by
  simp [hrvExtract, h]

theorem hrvExtract_no_key (hrv : JVal) (h : truthy hrv = true)
    (hc : pyContains hrv "hrvSummary" = Except.ok false) :
    hrvExtract hrv = Except.ok hrvDefault := by
  simp [hrvExtract, h, hc, Bind.bind, Except.bind]

theorem hrvExtract_key (hrv hvv : JVal) (h : truthy hrv = true)
    (hc : pyContains hrv "hrvSummary" = Except.ok true)
    (hg : dictGet hrv "hrvSummary" = Except.ok hvv) :
    hrvExtract hrv = Except.ok hvv := by
  simp [hrvExtract, h, hc, hg, Bind.bind, Except.bind]

/-- C9 counterexample: an HRV response `{"hrvSummary": {}}` is non-empty
but its hrvSummary sub-mapping is not populated; the claim then requires
hrvStatus = {"status": "UNKNOWN"}, yet the code stores the empty
sub-mapping. -/
theorem C9_counterexample :
    (updateData envHrvEmptySummary []).1 = Except.ok snapHrvEmptySummary ∧
    envHrvEmptySummary.hrvData =
      Except.ok (JVal.obj [("hrvSummary", JVal.obj [])]) ∧
    dlookup snapHrvEmptySummary "hrvStatus" = some (JVal.obj []) ∧
    dlookup snapHrvEmptySummary "hrvStatus" ≠ some hrvDefault := by
  refine ⟨rfl, rfl, rfl, ?_⟩
  intro h
  simp [snapHrvEmptySummary, dlookup, hrvDefault] at h

/-- C9 (amended): hrvStatus is {"status": "UNKNOWN"} unless the HRV
response is truthy and contains the hrvSummary key, in which case
hrvStatus equals the value under that key (populated or not). -/
theorem C9_hrv_amended (env : Env) (s taD : List (String × JVal))
    (body alarms atypes sleep hrv : JVal) (t1 : List ApiCall)
    (oss ost : Option JVal)
    (h1 : phase1 env [] =
      (Except.ok (s, body, alarms, atypes, sleep, hrv), t1))
    (hss : catchKeyOpt (pathLookup sleep sleepScorePath) = Except.ok oss)
    (hst : catchKeyOpt (pathLookup sleep sleepTimePath) = Except.ok ost)
    (hta : dictGet body "totalAverage" = Except.ok (JVal.obj taD)) :
    (truthy hrv = false →
      ∃ d tr, updateData env [] = (Except.ok d, tr) ∧
        dlookup d "hrvStatus" = some hrvDefault) ∧
    (truthy hrv = true → pyContains hrv "hrvSummary" = Except.ok false →
      ∃ d tr, updateData env [] = (Except.ok d, tr) ∧
        dlookup d "hrvStatus" = some hrvDefault) ∧
    (∀ hvv, truthy hrv = true →
      pyContains hrv "hrvSummary" = Except.ok true →
      dictGet hrv "hrvSummary" = Except.ok hvv →
      ∃ d tr, updateData env [] = (Except.ok d, tr) ∧
        dlookup d "hrvStatus" = some hvv) := by
  obtain ⟨g, gs, gd, t2, hp2, _⟩ := phase2_result env s t1
  refine ⟨?_, ?_, ?_⟩
  · intro hf
    refine ⟨mergeSnapshot s taD alarms g gs atypes gd oss ost hrvDefault,
      t2, ?_, ?_⟩
    · rw [updateData_run env s body alarms atypes sleep hrv t1 h1,
        updateRest_run env s body alarms atypes sleep hrv g gs gd t1 t2 hp2,
        phase34_ok s taD body alarms atypes sleep hrv g gs gd hrvDefault
          oss ost hss hst (hrvExtract_falsy hrv hf) hta]
    · exact (mergeSnapshot_fixed s taD alarms g gs atypes gd hrvDefault
        oss ost).2.2.2.2
  · intro ht hc
    refine ⟨mergeSnapshot s taD alarms g gs atypes gd oss ost hrvDefault,
      t2, ?_, ?_⟩
    · rw [updateData_run env s body alarms atypes sleep hrv t1 h1,
        updateRest_run env s body alarms atypes sleep hrv g gs gd t1 t2 hp2,
        phase34_ok s taD body alarms atypes sleep hrv g gs gd hrvDefault
          oss ost hss hst (hrvExtract_no_key hrv ht hc) hta]
    · exact (mergeSnapshot_fixed s taD alarms g gs atypes gd hrvDefault
        oss ost).2.2.2.2
  · intro hvv ht hc hg
    refine ⟨mergeSnapshot s taD alarms g gs atypes gd oss ost hvv,
      t2, ?_, ?_⟩
    · rw [updateData_run env s body alarms atypes sleep hrv t1 h1,
        updateRest_run env s body alarms atypes sleep hrv g gs gd t1 t2 hp2,
        phase34_ok s taD body alarms atypes sleep hrv g gs gd hvv
          oss ost hss hst (hrvExtract_key hrv hvv ht hc hg) hta]
    · exact (mergeSnapshot_fixed s taD alarms g gs atypes gd hvv
        oss ost).2.2.2.2

/-- Witness for C9 (amended) at three concrete environments: falsy HRV
response, truthy response without the key, truthy response with a
populated key. -/
theorem C9_hrv_amended_witness :
    (∃ d tr, updateData envBase [] = (Except.ok d, tr) ∧
      dlookup d "hrvStatus" = some hrvDefault) ∧
    (∃ d tr, updateData
        { envBase with hrvData := Except.ok (JVal.obj [("x", JVal.num 1)]) }
        [] = (Except.ok d, tr) ∧
      dlookup d "hrvStatus" = some hrvDefault) ∧
    (∃ d tr, updateData { envBase with hrvData := Except.ok (JVal.obj [("hrvSummary", JVal.obj [("status", JVal.str "BALANCED")])]) }
        [] = (Except.ok d, tr) ∧
      dlookup d "hrvStatus" =
        some (JVal.obj [("status", JVal.str "BALANCED")])) :=
  ⟨(C9_hrv_amended envBase
      [("userProfileId", JVal.str "p1"), ("totalKcal", JVal.num 100),
       ("lastActivities", JVal.arr []), ("badges", JVal.arr [])]
      [("weight", JVal.num 70), ("totalKcal", JVal.num 999)]
      (JVal.obj [("totalAverage",
        JVal.obj [("weight", JVal.num 70), ("totalKcal", JVal.num 999)])])
      (JVal.arr []) (JVal.arr [actTypeEntry "running" (JVal.num 5)])
      (JVal.obj []) (JVal.obj [])
      [ApiCall.getUserSummary, ApiCall.getBodyComposition,
       ApiCall.getActivitiesByDate, ApiCall.getEarnedBadges,
       ApiCall.getDeviceAlarms, ApiCall.getActivityTypes,
       ApiCall.getSleepData, ApiCall.getHrvData]
      none none rfl rfl rfl rfl).1 rfl,
   (C9_hrv_amended
      { envBase with hrvData := Except.ok (JVal.obj [("x", JVal.num 1)]) }
      [("userProfileId", JVal.str "p1"), ("totalKcal", JVal.num 100),
       ("lastActivities", JVal.arr []), ("badges", JVal.arr [])]
      [("weight", JVal.num 70), ("totalKcal", JVal.num 999)]
      (JVal.obj [("totalAverage",
        JVal.obj [("weight", JVal.num 70), ("totalKcal", JVal.num 999)])])
      (JVal.arr []) (JVal.arr [actTypeEntry "running" (JVal.num 5)])
      (JVal.obj []) (JVal.obj [("x", JVal.num 1)])
      [ApiCall.getUserSummary, ApiCall.getBodyComposition,
       ApiCall.getActivitiesByDate, ApiCall.getEarnedBadges,
       ApiCall.getDeviceAlarms, ApiCall.getActivityTypes,
       ApiCall.getSleepData, ApiCall.getHrvData]
      none none rfl rfl rfl rfl).2.1 rfl rfl,
   (C9_hrv_amended
      { envBase with hrvData := Except.ok (JVal.obj [("hrvSummary", JVal.obj [("status", JVal.str "BALANCED")])]) }
      [("userProfileId", JVal.str "p1"), ("totalKcal", JVal.num 100),
       ("lastActivities", JVal.arr []), ("badges", JVal.arr [])]
      [("weight", JVal.num 70), ("totalKcal", JVal.num 999)]
      (JVal.obj [("totalAverage",
        JVal.obj [("weight", JVal.num 70), ("totalKcal", JVal.num 999)])])
      (JVal.arr []) (JVal.arr [actTypeEntry "running" (JVal.num 5)])
      (JVal.obj [])
      (JVal.obj [("hrvSummary", JVal.obj [("status", JVal.str "BALANCED")])])
      [ApiCall.getUserSummary, ApiCall.getBodyComposition,
       ApiCall.getActivitiesByDate, ApiCall.getEarnedBadges,
       ApiCall.getDeviceAlarms, ApiCall.getActivityTypes,
       ApiCall.getSleepData, ApiCall.getHrvData]
      none none rfl rfl rfl rfl).2.2
     (JVal.obj [("status", JVal.str "BALANCED")]) rfl rfl rfl⟩

/-- C10: when every phase-1 fetch succeeds but the body-composition dict
lacks the totalAverage key (and the extractions preceding the merge do
not raise), the refresh raises an uncaught KeyError—neither a snapshot
nor an UpdateFailed condition. -/
theorem C10_totalAverage_missing (env : Env)
    (s bd : List (String × JVal))
    (body alarms atypes sleep hrv hv : JVal) (t1 : List ApiCall)
    (oss ost : Option JVal)
    (h1 : phase1 env [] =
      (Except.ok (s, body, alarms, atypes, sleep, hrv), t1))
    (hss : catchKeyOpt (pathLookup sleep sleepScorePath) = Except.ok oss)
    (hst : catchKeyOpt (pathLookup sleep sleepTimePath) = Except.ok ost)
    (hhv : hrvExtract hrv = Except.ok hv)
    (hbody : body = JVal.obj bd)
    (hta : dlookup bd "totalAverage" = none) :
    ∃ tr, updateData env [] = (Except.error PyErr.keyError, tr) := by
  obtain ⟨g, gs, gd, t2, hp2, _⟩ := phase2_result env s t1
  refine ⟨t2, ?_⟩
  rw [updateData_run env s body alarms atypes sleep hrv t1 h1,
    updateRest_run env s body alarms atypes sleep hrv g gs gd t1 t2 hp2]
  have hget : dictGet body "totalAverage" = Except.error PyErr.keyError := by
    rw [hbody]
    simp [dictGet, hta]
  simp [phase34, hss, hst, hhv, hget, Bind.bind, Except.bind]

/-- Witness for C10: a body-composition response that is an empty dict. -/
theorem C10_totalAverage_missing_witness :
    ∃ tr, updateData { envBase with bodyComposition := Except.ok (JVal.obj []) } [] =
      (Except.error PyErr.keyError, tr) :=
  C10_totalAverage_missing
    { envBase with bodyComposition := Except.ok (JVal.obj []) }
    [("userProfileId", JVal.str "p1"), ("totalKcal", JVal.num 100),
     ("lastActivities", JVal.arr []), ("badges", JVal.arr [])]
    []
    (JVal.obj []) (JVal.arr [])
    (JVal.arr [actTypeEntry "running" (JVal.num 5)])
    (JVal.obj []) (JVal.obj []) hrvDefault
    [ApiCall.getUserSummary, ApiCall.getBodyComposition,
     ApiCall.getActivitiesByDate, ApiCall.getEarnedBadges,
     ApiCall.getDeviceAlarms, ApiCall.getActivityTypes,
     ApiCall.getSleepData, ApiCall.getHrvData]
    none none rfl rfl rfl rfl rfl rfl

theorem dictGet_gearEntry_pk (u pk : JVal) :
    dictGet (gearEntry u pk) GEAR_ACTIVITY_TYPE_PK = Except.ok pk := by
  simp [gearEntry, dictGet, dlookup, GEAR_UUID, GEAR_ACTIVITY_TYPE_PK]

theorem dictGet_gearEntry_uuid (u pk : JVal) :
    dictGet (gearEntry u pk) GEAR_UUID = Except.ok u := by
  simp [gearEntry, dictGet, dlookup, GEAR_UUID]

theorem dictGet_actTypeEntry_key (l : String) (tid : JVal) :
    dictGet (actTypeEntry l tid) GEAR_TYPE_KEY = Except.ok (JVal.str l) := by
  simp [actTypeEntry, dictGet, dlookup, GEAR_TYPE_KEY]

theorem dictGet_actTypeEntry_id (l : String) (tid : JVal) :
    dictGet (actTypeEntry l tid) GEAR_TYPE_ID = Except.ok tid := by
  simp [actTypeEntry, dictGet, dlookup, GEAR_TYPE_KEY, GEAR_TYPE_ID]

theorem findFirstE_no_match (serviceData : List (String × JVal))
    (req : JVal) (hreq : dlookup serviceData "activity_type" = some req)
    (ats : List (String × JVal))
    (hno : ∀ p ∈ ats, pyEq (JVal.str p.1) req = false) :
    findFirstE (activityTypeMatch serviceData)
      (ats.map (fun p => actTypeEntry p.1 p.2)) =
      Except.error PyErr.stopIteration := by
  have hreqget : dictGet (JVal.obj serviceData) "activity_type" =
      Except.ok req := by
    simp [dictGet, hreq]
  induction ats with
  | nil => simp [findFirstE]
  | cons p ps ih =>
    have hp : pyEq (JVal.str p.1) req = false := hno p (by simp)
    have hps : ∀ q ∈ ps, pyEq (JVal.str q.1) req = false :=
      fun q hq => hno q (by simp [hq])
    simp [findFirstE, activityTypeMatch, dictGet_actTypeEntry_key, hreqget,
      hp, ih hps, Bind.bind, Except.bind, Pure.pure, Except.pure]

theorem filterME_gearEntries (atid entityUuid : JVal)
    (ds : List (JVal × JVal)) :
    filterME (deactivateCond atid entityUuid)
      (ds.map (fun p => gearEntry p.1 p.2)) =
      Except.ok ((ds.filter
        (fun p => pyEq p.2 atid && !pyEq p.1 entityUuid)).map
        (fun p => gearEntry p.1 p.2)) := by
  induction ds with
  | nil => simp [filterME]
  | cons p ps ih =>
    by_cases hpk : pyEq p.2 atid
    · by_cases hu : pyEq p.1 entityUuid
      · simp [filterME, deactivateCond, dictGet_gearEntry_pk,
          dictGet_gearEntry_uuid, hpk, hu, ih, Bind.bind, Except.bind,
          Pure.pure, Except.pure, List.filter_cons]
      · simp [filterME, deactivateCond, dictGet_gearEntry_pk,
          dictGet_gearEntry_uuid, hpk, hu, ih, Bind.bind, Except.bind,
          Pure.pure, Except.pure, List.filter_cons]
    · simp [filterME, deactivateCond, dictGet_gearEntry_pk,
        dictGet_gearEntry_uuid, hpk, ih, Bind.bind, Except.bind,
        Pure.pure, Except.pure, List.filter_cons]

theorem deactivateLoop_ok (env : Env) (atid : JVal)
    (ds : List (JVal × JVal))
    (hw : ∀ u, env.setGearDefault atid u false = Except.ok ()) :
    ∀ t, deactivateLoop env atid (ds.map (fun p => gearEntry p.1 p.2)) t =
      (Except.ok (),
       t ++ ds.map (fun p => ApiCall.setGearDefault atid p.1 false)) := by
  induction ds with
  | nil =>
    intro t
    simp [deactivateLoop, Pure.pure, PyM.pure]
  | cons p ps ih =>
    intro t
    simp [deactivateLoop, dictGet_gearEntry_uuid, hw p.1,
      ih (t ++ [ApiCall.setGearDefault atid p.1 false])]

/-- C5: with login succeeding and an activity-type label matching no entry
of the snapshot list, set_active_gear raises (the exhausted-iterator
condition of `next`) and the trace holds only the login call—no
set_gear_default write was issued. -/
theorem C5_unknown_label (env : Env)
    (selfData serviceData : List (String × JVal)) (entityUuid : JVal)
    (setv req : JVal) (ats : List (String × JVal))
    (hl : env.loginExc = none)
    (hset : dlookup serviceData "setting" = some setv)
    (hreq : dlookup serviceData "activity_type" = some req)
    (hat : dlookup selfData "activity_types" =
      some (JVal.arr (ats.map (fun p => actTypeEntry p.1 p.2))))
    (hno : ∀ p ∈ ats, pyEq (JVal.str p.1) req = false) :
    set_active_gear env selfData entityUuid serviceData [] =
      (Except.error PyErr.stopIteration, [ApiCall.login]) := by
  have hfind := findFirstE_no_match serviceData req hreq ats hno
  simp [set_active_gear, async_login, hl, dictGet, hset, hat, pyIter,
    hfind, Pure.pure, PyM.pure]

/-- Witness for C5: requesting the unknown label zzz against a snapshot
knowing only the label running. -/
theorem C5_unknown_label_witness :
    set_active_gear envBase selfDataBase (JVal.str "C")
      [("setting", JVal.str "exclusive-default"),
       ("activity_type", JVal.str "zzz")] [] =
      (Except.error PyErr.stopIteration, [ApiCall.login]) :=
  C5_unknown_label envBase selfDataBase
    [("setting", JVal.str "exclusive-default"),
     ("activity_type", JVal.str "zzz")]
    (JVal.str "C") (JVal.str "exclusive-default") (JVal.str "zzz")
    [("running", JVal.num 5)] rfl rfl rfl rfl (by decide)

/-- C4: an exclusive-default request first fetches the current gear
defaults, then issues one deactivating write per fetched entry whose
activity-type primary key equals the resolved id and whose uuid differs
from the target (in fetched order), then one activating write for the
target—exactly these writes, in exactly that order. -/
theorem C4_exclusive_default (env : Env)
    (selfData serviceData : List (String × JVal))
    (entityUuid pid atid entry : JVal) (ats : List (String × JVal))
    (ds : List (JVal × JVal))
    (hl : env.loginExc = none)
    (hset : dlookup serviceData "setting" =
      some (JVal.str SETTING_ONLY_THIS_AS_DEFAULT))
    (hat : dlookup selfData "activity_types" =
      some (JVal.arr (ats.map (fun p => actTypeEntry p.1 p.2))))
    (hfind : findFirstE (activityTypeMatch serviceData)
      (ats.map (fun p => actTypeEntry p.1 p.2)) = Except.ok entry)
    (hatid : dictGet entry GEAR_TYPE_ID = Except.ok atid)
    (hpid : dlookup selfData GEAR_USERPROFILE_ID = some pid)
    (hgd : env.gearDefaults pid =
      Except.ok (JVal.arr (ds.map (fun p => gearEntry p.1 p.2))))
    (hw : ∀ u b, env.setGearDefault atid u b = Except.ok ()) :
    set_active_gear env selfData entityUuid serviceData [] =
      (Except.ok (),
       [ApiCall.login, ApiCall.getGearDefaults pid] ++
       ((ds.filter (fun p => pyEq p.2 atid && !pyEq p.1 entityUuid)).map
         (fun p => ApiCall.setGearDefault atid p.1 false)) ++
       [ApiCall.setGearDefault atid entityUuid true]) := by
  have hloop := deactivateLoop_ok env atid
    (ds.filter (fun p => pyEq p.2 atid && !pyEq p.1 entityUuid))
    (fun u => hw u false)
    [ApiCall.login, ApiCall.getGearDefaults pid]
  have hsetget : dictGet (JVal.obj serviceData) "setting" =
      Except.ok (JVal.str SETTING_ONLY_THIS_AS_DEFAULT) := by
    simp [dictGet, hset]
  have hatget : dictGet (JVal.obj selfData) "activity_types" =
      Except.ok (JVal.arr (ats.map (fun p => actTypeEntry p.1 p.2))) := by
    simp [dictGet, hat]
  have hpidget : dictGet (JVal.obj selfData) GEAR_USERPROFILE_ID =
      Except.ok pid := by
    simp [dictGet, hpid]
  simp [set_active_gear, async_login, hl, hsetget, hatget, pyIter,
    hfind, hatid, hpidget, hgd, filterME_gearEntries, hloop,
    hw entityUuid true, pyEq, SETTING_ONLY_THIS_AS_DEFAULT,
    Pure.pure, PyM.pure]

/-- Witness for C4: the section-8 scenario—defaults A and B for activity
type 5, target C: deactivate A, deactivate B, activate C. -/
theorem C4_exclusive_default_witness :
    set_active_gear envExclusive selfDataBase (JVal.str "C")
      serviceDataExclusive [] =
      (Except.ok (),
       [ApiCall.login, ApiCall.getGearDefaults (JVal.str "p1"),
        ApiCall.setGearDefault (JVal.num 5) (JVal.str "A") false,
        ApiCall.setGearDefault (JVal.num 5) (JVal.str "B") false,
        ApiCall.setGearDefault (JVal.num 5) (JVal.str "C") true]) :=
  C4_exclusive_default envExclusive selfDataBase serviceDataExclusive
    (JVal.str "C") (JVal.str "p1") (JVal.num 5)
    (actTypeEntry "running" (JVal.num 5))
    [("running", JVal.num 5)]
    [(JVal.str "A", JVal.num 5), (JVal.str "B", JVal.num 5)]
    rfl rfl rfl rfl rfl rfl rfl (fun _ _ => rfl)
